import Mathlib

/-!
Verification development for the VulnDash extraction / processing core.

This file gives a shallow embedding, in Lean 4, of the confidence-scored
LLM extraction engine and the raw-entry processing pipeline of the
repository:

* `app/backend/services/llm_service.py` (`LLMService`): validation of the
  provider JSON output, confidence scoring, fallback results;
* `app/backend/services/llm_multi_provider_service.py`
  (`MultiProviderLLMService`): ordered provider fallback chain;
* `app/backend/services/processing_service.py` (`ProcessingService`):
  entry selection, reconciliation against the curated store,
  batch statistics;
* `app/backend/models/database.py`: the persisted shapes of `RawEntry`
  and `Vulnerability`.

Modelling conventions:

* Python strings are `List Char`; `.upper()` / `.strip()` are modelled for
  the ASCII range (the only range the CVE pattern and severity sets touch).
* Python floats are modelled as rationals `ℚ`.  Every confidence value
  produced by the scoring algorithm is an integer multiple of 1/100, so
  `round(x, 3)` never sits at a tie and the difference between Python's
  round-half-to-even and Mathlib's `round` is immaterial here.
* The LLM provider call is a parameter: an `Except` value describing
  either the parsed JSON object that `generate_json` would return, or the
  error it would raise.  All network / generation failures of the Ollama
  client surface as a single exception class (`OllamaModelError`), which
  `LLMService.extract_vulnerability` catches, so the single-provider
  engine is total in the error argument.
* The database session is explicit state: the vulnerabilities table is a
  `List Vulnerability`, primary-key lookup is `List.find?`, and the two
  `datetime.utcnow` timestamps of one processing step are modelled as one
  clock value `now : Nat` supplied per step.
-/

/-! ### Python string primitives (ASCII fragment) -/

/-- Truthiness of an optional Python string: `None` and `""` are falsy. -/
def optTruthy : Option (List Char) → Bool
  | none => false
  | some s => !s.isEmpty

/-- `str.upper()` restricted to ASCII, which is all the CVE pattern and
severity comparisons use. -/
def pyUpper (s : List Char) : List Char := s.map Char.toUpper

/-- The ASCII whitespace set stripped by Python's `str.strip()`. -/
def isPySpace (c : Char) : Bool :=
  c = ' ' || c = '\t' || c = '\n' || c = '\r' || c = '\x0b' || c = '\x0c'

/-- `str.strip()` on ASCII whitespace. -/
def pyStrip (s : List Char) : List Char :=
  ((s.dropWhile isPySpace).reverse.dropWhile isPySpace).reverse

/-! ### The CVE pattern `CVE-\d{4}-\d{4,}` (case-insensitive)

`llm_service.py` line 75: `CVE_PATTERN = re.compile(r'CVE-\d{4}-\d{4,}',
re.IGNORECASE)`.  The pattern has no backtracking freedom: the year is
exactly four digits and the trailing digit run is greedy, so a match at a
given position, when it exists, is unique and maximal. -/

/-- The match of `CVE_PATTERN` anchored at the head of `s`, if any:
`CVE-` (case-insensitive), four digits, `-`, then a maximal run of at
least four digits. -/
def cveMatchAt (s : List Char) : Option (List Char) :=
  match s with
  | c :: v :: e :: d :: y1 :: y2 :: y3 :: y4 :: d2 :: rest =>
    if c.toUpper = 'C' ∧ v.toUpper = 'V' ∧ e.toUpper = 'E' ∧ d = '-' ∧
        y1.isDigit ∧ y2.isDigit ∧ y3.isDigit ∧ y4.isDigit ∧ d2 = '-' ∧
        4 ≤ (rest.takeWhile Char.isDigit).length then
      some (c :: v :: e :: d :: y1 :: y2 :: y3 :: y4 :: d2 ::
        rest.takeWhile Char.isDigit)
    else none
  | _ => none

/-- `CVE_PATTERN.search`: the leftmost match in `s`. -/
def cveSearch : List Char → Option (List Char)
  | [] => none
  | c :: rest =>
    match cveMatchAt (c :: rest) with
    | some m => some m
    | none => cveSearch rest

/-- `CVE_PATTERN.fullmatch`: the pattern consumes the whole string. -/
def cveFullmatch (s : List Char) : Bool :=
  match cveMatchAt s with
  | some m => m = s
  | none => false

/-! ### Provider JSON output

The dictionary parsed out of the model response by `generate_json`.
String-valued fields are kept after Python's `str(...)` coercion; the
`cvss_score` field is whatever `float(...)` would see: either a value it
converts to a number, or one that makes it raise
`ValueError`/`TypeError`. -/

/-- Argument to Python `float(...)`: convertible with value `q`, or one
raising `ValueError`/`TypeError`. -/
inductive PyFloatArg where
  | val (q : ℚ)
  | bad
deriving DecidableEq

/-- The JSON object returned by a provider (missing and `null` fields are
both `none`, as `dict.get` merges them). -/
structure LLMData where
  cve_id : Option (List Char)
  title : Option (List Char)
  description : Option (List Char)
  vendor : Option (List Char)
  product : Option (List Char)
  severity : Option (List Char)
  cvss_score : Option PyFloatArg
  cvss_vector : Option (List Char)
deriving DecidableEq

/-- A provider output with every field absent. -/
def emptyLLMData : LLMData :=
  { cve_id := none, title := none, description := none, vendor := none,
    product := none, severity := none, cvss_score := none,
    cvss_vector := none }

/-! ### Validation (`LLMService._validate_extraction`) -/

/-- The validation issues recorded by `_validate_extraction`; one
constructor per message template of the source. -/
inductive Issue where
  | invalid_cve_format (v : List Char)
  | cve_from_raw_text
  | no_cve_id_found
  | invalid_severity (v : List Char)
  | cvss_out_of_range (q : ℚ)
  | invalid_cvss_value
  | raw_text_description
deriving DecidableEq

/-- `VALID_SEVERITIES` from `llm_service.py` line 78. -/
def VALID_SEVERITIES : List (List Char) :=
  ["CRITICAL".data, "HIGH".data, "MEDIUM".data, "LOW".data,
    "NONE".data, "UNKNOWN".data]

/-- The `"UNKNOWN"` severity value. -/
def UNKNOWN_sev : List Char := "UNKNOWN".data

/-- The validated dictionary built by `_validate_extraction`: after the
final description step, `description` and `severity` are always set. -/
structure Validated where
  cve_id : Option (List Char)
  title : Option (List Char)
  description : List Char
  vendor : Option (List Char)
  product : Option (List Char)
  severity : List Char
  cvss_score : Option ℚ
  cvss_vector : Option (List Char)
  validation_issues : List Issue
deriving DecidableEq

/-- The simple-string-field rule of `_validate_extraction` lines 243-246:
kept, stripped, iff the value is truthy and strips to a nonempty
string. -/
def validateStrField : Option (List Char) → Option (List Char)
  | some s => if !s.isEmpty && !(pyStrip s).isEmpty then some (pyStrip s) else none
  | none => none

/-- The CVE-id section of `_validate_extraction` (lines 197-216): a
truthy provider value is uppercased, stripped and full-matched against
the pattern; on failure (and when the value is falsy) the raw text is
re-scanned. -/
def validate_cve_field (cve_id : Option (List Char)) (raw_text : List Char) :
    Option (List Char) × List Issue :=
  if optTruthy cve_id then
    if cveFullmatch (pyStrip (pyUpper (cve_id.getD []))) then
      (some (pyStrip (pyUpper (cve_id.getD []))), [])
    else
      match cveSearch raw_text with
      | some m =>
        (some (pyUpper m),
          [Issue.invalid_cve_format (pyStrip (pyUpper (cve_id.getD []))),
            Issue.cve_from_raw_text])
      | none => (none, [Issue.invalid_cve_format (pyStrip (pyUpper (cve_id.getD [])))])
  else
    match cveSearch raw_text with
    | some m => (some (pyUpper m), [])
    | none => (none, [Issue.no_cve_id_found])

/-- The severity section of `_validate_extraction` (lines 218-228). -/
def validate_severity_field (severity : Option (List Char)) :
    List Char × List Issue :=
  if optTruthy severity then
    if pyStrip (pyUpper (severity.getD [])) ∈ VALID_SEVERITIES then
      (pyStrip (pyUpper (severity.getD [])), [])
    else
      (UNKNOWN_sev, [Issue.invalid_severity (pyStrip (pyUpper (severity.getD [])))])
  else (UNKNOWN_sev, [])

/-- The CVSS section of `_validate_extraction` (lines 230-240). -/
def validate_cvss_field (cvss_score : Option PyFloatArg) :
    Option ℚ × List Issue :=
  match cvss_score with
  | none => (none, [])
  | some (PyFloatArg.val q) =>
    if 0 ≤ q ∧ q ≤ 10 then (some q, []) else (none, [Issue.cvss_out_of_range q])
  | some PyFloatArg.bad => (none, [Issue.invalid_cvss_value])

/-- The ensure-description step of `_validate_extraction` (lines
248-251), applied after the simple-string-field loop. -/
def validate_description_field (description : Option (List Char))
    (raw_text : List Char) : List Char × List Issue :=
  match validateStrField description with
  | some d =>
    if d.length < 10 then (raw_text.take 500, [Issue.raw_text_description])
    else (d, [])
  | none => (raw_text.take 500, [Issue.raw_text_description])

/-- `LLMService._validate_extraction` (`llm_service.py` lines 183-254). -/
def validate_extraction (data : LLMData) (raw_text : List Char) : Validated :=
  { cve_id := (validate_cve_field data.cve_id raw_text).1
    title := validateStrField data.title
    description := (validate_description_field data.description raw_text).1
    vendor := validateStrField data.vendor
    product := validateStrField data.product
    severity := (validate_severity_field data.severity).1
    cvss_score := (validate_cvss_field data.cvss_score).1
    cvss_vector := validateStrField data.cvss_vector
    validation_issues :=
      (validate_cve_field data.cve_id raw_text).2 ++
        (validate_severity_field data.severity).2 ++
        (validate_cvss_field data.cvss_score).2 ++
        (validate_description_field data.description raw_text).2 }

/-! ### Confidence scoring (`LLMService._calculate_confidence`) -/

/-- Python `round(x, 3)` on the rationals this algorithm produces (all
multiples of 1/100, so no tie is ever hit and the rounding mode is
irrelevant). -/
def round3 (q : ℚ) : ℚ := ((round (q * 1000) : ℤ) : ℚ) / 1000

/-- `LLMService._calculate_confidence` (`llm_service.py` lines 256-318). -/
def calculate_confidence (validated_data : Validated) : ℚ :=
  let score : ℚ :=
    (if optTruthy validated_data.cve_id then 30 else 0) +
    (if optTruthy validated_data.vendor then 10 else 0) +
    (if optTruthy validated_data.product then 10 else 0) +
    (if validated_data.severity ≠ [] ∧ validated_data.severity ≠ UNKNOWN_sev
      then 15 else 0) +
    (if validated_data.cvss_score.isSome then 10 else 0) +
    (if 50 ≤ validated_data.description.length then 15
      else if 20 ≤ validated_data.description.length then 10
      else if 10 ≤ validated_data.description.length then 5 else 0) +
    (if optTruthy validated_data.title then 10 else 0)
  let max_score : ℚ := 30 + 20 + 15 + 10 + 15 + 10
  let penalty : ℚ :=
    min ((validated_data.validation_issues.length : ℚ) * 5) 20
  round3 (max 0 (min 1 (score / max_score - penalty / 100)))

/-! ### Extraction results (`ExtractionResult`) -/

/-- The slice of `extraction_metadata` the specification talks about:
error and fallback flags, recorded validation issues, and (for the
multi-provider service) the provider name and attempt index. -/
structure ExtractionMetadata where
  error : Option (List Char)
  fallback : Bool
  validation_issues : List Issue
  provider : Option (List Char)
  fallback_attempt : Option Nat
deriving DecidableEq

/-- `ExtractionResult` (`llm_service.py` lines 21-64). -/
structure ExtractionResult where
  cve_id : Option (List Char)
  title : Option (List Char)
  description : List Char
  vendor : Option (List Char)
  product : Option (List Char)
  severity : Option (List Char)
  cvss_score : Option ℚ
  cvss_vector : Option (List Char)
  confidence_score : ℚ
  needs_review : Bool
  extraction_metadata : ExtractionMetadata
deriving DecidableEq

/-- `LLMService._create_fallback_result` (`llm_service.py` lines
320-351). -/
def create_fallback_result (raw_text : List Char) (error_msg : List Char) :
    ExtractionResult :=
  let cve_id := (cveSearch raw_text).map pyUpper
  { cve_id := cve_id
    title := none
    description := raw_text.take 500
    vendor := none
    product := none
    severity := some UNKNOWN_sev
    cvss_score := none
    cvss_vector := none
    confidence_score := if cve_id.isSome then 1/10 else 0
    needs_review := true
    extraction_metadata :=
      { error := some error_msg, fallback := true, validation_issues := [],
        provider := none, fallback_attempt := none } }

/-- `LLMService.extract_vulnerability` (`llm_service.py` lines 117-181).
The provider call is the `llm_outcome` argument; the `except
OllamaModelError` branch is the `Except.error` case (the Ollama client
wraps every network / generation failure of `generate_json` in
`OllamaModelError`). -/
def extract_vulnerability (confidence_threshold : ℚ)
    (llm_outcome : Except (List Char) LLMData) (raw_text : List Char) :
    ExtractionResult :=
  match llm_outcome with
  | Except.ok extracted_data =>
    let validated := validate_extraction extracted_data raw_text
    let confidence := calculate_confidence validated
    { cve_id := validated.cve_id
      title := validated.title
      description := validated.description
      vendor := validated.vendor
      product := validated.product
      severity := some validated.severity
      cvss_score := validated.cvss_score
      cvss_vector := validated.cvss_vector
      confidence_score := confidence
      needs_review := decide (confidence < confidence_threshold)
      extraction_metadata :=
        { error := none, fallback := false,
          validation_issues := validated.validation_issues,
          provider := none, fallback_attempt := none } }
  | Except.error e => create_fallback_result raw_text e

/-! ### Multi-provider fallback
(`llm_multi_provider_service.py`, `MultiProviderLLMService`) -/

/-- The two retriable provider exception classes
(`llm_providers.py` lines 30-38). -/
inductive ProviderError where
  | connection (msg : List Char)
  | generation (msg : List Char)
deriving DecidableEq

/-- `str(e)` for a provider exception. -/
def ProviderError.msg : ProviderError → List Char
  | connection m => m
  | generation m => m

/-- A configured provider together with the outcome its `generate_json`
call produces for the request at hand. -/
structure Provider where
  provider_name : List Char
  outcome : Except ProviderError LLMData

/-- The successful-extraction result built inside the provider loop
(`llm_multi_provider_service.py` lines 104-136): identical to the
single-provider success path except that the metadata records the
provider name and the attempt index. -/
def multi_success_result (confidence_threshold : ℚ) (raw_text : List Char)
    (name : List Char) (attempt : Nat) (extracted_data : LLMData) :
    ExtractionResult :=
  let validated := validate_extraction extracted_data raw_text
  let confidence := calculate_confidence validated
  { cve_id := validated.cve_id
    title := validated.title
    description := validated.description
    vendor := validated.vendor
    product := validated.product
    severity := some validated.severity
    cvss_score := validated.cvss_score
    cvss_vector := validated.cvss_vector
    confidence_score := confidence
    needs_review := decide (confidence < confidence_threshold)
    extraction_metadata :=
      { error := none, fallback := false,
        validation_issues := validated.validation_issues,
        provider := some name, fallback_attempt := some attempt } }

/-- The error message of the final fallback,
`f"All providers failed: {str(last_error)}"` (line 152-155);
`str(None) = "None"`. -/
def all_failed_msg (last_error : Option ProviderError) : List Char :=
  "All providers failed: ".data ++
    (match last_error with
      | some e => e.msg
      | none => "None".data)

/-- The provider loop of `MultiProviderLLMService.extract_vulnerability`
(lines 85-155): `attempt` is the loop index, the list holds the providers
not yet tried, and the last argument is `last_error`.  The loop breaks
when `attempt >= max_retries`, advances past a provider exactly on
`LLMConnectionError` / `LLMGenerationError`, and returns the success
result of the first provider whose `generate_json` returns parsed
JSON. -/
def multi_extract_go (confidence_threshold : ℚ) (max_retries : Nat)
    (raw_text : List Char) :
    Nat → List Provider → Option ProviderError → ExtractionResult
  | _, [], last_error =>
    create_fallback_result raw_text (all_failed_msg last_error)
  | attempt, p :: rest, last_error =>
    if max_retries ≤ attempt then
      create_fallback_result raw_text (all_failed_msg last_error)
    else
      match p.outcome with
      | Except.ok extracted_data =>
        multi_success_result confidence_threshold raw_text p.provider_name
          attempt extracted_data
      | Except.error e =>
        multi_extract_go confidence_threshold max_retries raw_text
          (attempt + 1) rest (some e)

/-- `MultiProviderLLMService.extract_vulnerability` (lines 70-155):
`providers_to_try = [self.primary_provider] + self.fallback_providers`. -/
def multi_extract_vulnerability (confidence_threshold : ℚ)
    (max_retries : Nat) (primary_provider : Provider)
    (fallback_providers : List Provider) (raw_text : List Char) :
    ExtractionResult :=
  multi_extract_go confidence_threshold max_retries raw_text 0
    (primary_provider :: fallback_providers) none

/-- The value of `last_error` after the loop has consumed a list of
providers (each failing provider overwrites it with its exception). -/
def last_error_after (ps : List Provider) (init : Option ProviderError) :
    Option ProviderError :=
  ps.foldl
    (fun acc p =>
      match p.outcome with
      | Except.error e => some e
      | Except.ok _ => acc)
    init

/-! ### The processing pipeline (`processing_service.py`) -/

/-- `ProcessingStatus` (`models/database.py`). -/
inductive ProcessingStatus where
  | pending
  | processing
  | completed
  | failed
deriving DecidableEq

/-- `RawEntry` (`models/database.py` lines 80-109); timestamps are clock
ticks.  Ingestion creates entries with status `PENDING` and
`processing_attempts = 0` (the column defaults). -/
structure RawEntry where
  id : Nat
  raw_payload : List Char
  processing_status : ProcessingStatus
  processing_attempts : Nat
  last_processing_error : Option (List Char)
  ingested_at : Nat
  processed_at : Option Nat
deriving DecidableEq

/-- `Vulnerability` (`models/database.py` lines 112-157), restricted to
the columns the pipeline reads or writes.  On insert both timestamp
columns default to `datetime.utcnow`; the two default calls of one
insert are modelled as the same clock tick. -/
structure Vulnerability where
  cve_id : List Char
  title : Option (List Char)
  description : List Char
  severity : Option (List Char)
  cvss_score : Option ℚ
  cvss_vector : Option (List Char)
  confidence_score : ℚ
  needs_review : Bool
  extraction_metadata : ExtractionMetadata
  created_at : Nat
  updated_at : Nat
deriving DecidableEq

/-- `self.db.get(Vulnerability, cve)`: primary-key lookup in the
vulnerabilities table. -/
def dbGetVulnerability (store : List Vulnerability) (cve : List Char) :
    Option Vulnerability :=
  store.find? (fun v => decide (v.cve_id = cve))

/-- In-place mutation of the fetched ORM row: every row with the given
key is replaced. -/
def storeReplace (store : List Vulnerability) (cve : List Char)
    (v : Vulnerability) : List Vulnerability :=
  store.map (fun w => if w.cve_id = cve then v else w)

/-- Python `a or b` on optional strings (`None` and `""` are falsy). -/
def py_or_str (a b : Option (List Char)) : Option (List Char) :=
  if optTruthy a then a else b

/-- Python `a or b` where `a` is a plain string. -/
def py_or_desc (a b : List Char) : List Char :=
  if a.isEmpty then b else a

/-- Python `a or b` on optional floats (`None` and `0.0` are falsy). -/
def py_or_q (a b : Option ℚ) : Option ℚ :=
  match a with
  | some q => if q = 0 then b else some q
  | none => b

/-- The field update of the higher-confidence duplicate branch
(`processing_service.py` lines 160-169). -/
def updated_vulnerability (existing : Vulnerability)
    (extraction : ExtractionResult) (now : Nat) : Vulnerability :=
  { existing with
    title := py_or_str extraction.title existing.title
    description := py_or_desc extraction.description existing.description
    severity := py_or_str extraction.severity existing.severity
    cvss_score := py_or_q extraction.cvss_score existing.cvss_score
    cvss_vector := py_or_str extraction.cvss_vector existing.cvss_vector
    confidence_score := extraction.confidence_score
    needs_review := extraction.needs_review
    extraction_metadata := extraction.extraction_metadata
    updated_at := now }

/-- The freshly inserted row of the not-found branch (lines 186-196);
`created_at` and `updated_at` take their column defaults at the same
tick. -/
def new_vulnerability (cve : List Char) (extraction : ExtractionResult)
    (now : Nat) : Vulnerability :=
  { cve_id := cve
    title := extraction.title
    description := extraction.description
    severity := extraction.severity
    cvss_score := extraction.cvss_score
    cvss_vector := extraction.cvss_vector
    confidence_score := extraction.confidence_score
    needs_review := extraction.needs_review
    extraction_metadata := extraction.extraction_metadata
    created_at := now
    updated_at := now }

/-- `entry.last_processing_error` of the no-CVE branch (line 143). -/
def no_cve_error : List Char := "No CVE ID extracted from text".data

/-- The value returned by (and the state after) one `process_entry`
call. -/
structure EntryOutcome where
  entry : RawEntry
  store : List Vulnerability
  result : Option Vulnerability
deriving DecidableEq

/-- `ProcessingService.process_entry` (`processing_service.py` lines
114-215), with the already-computed extraction result as argument (per
C4 / section 7 of the spec, extraction itself never raises).  The clock
value `now` stands for each `datetime.utcnow()` read in this step. -/
def process_entry (now : Nat) (entry : RawEntry)
    (extraction : ExtractionResult) (store : List Vulnerability) :
    EntryOutcome :=
  let entry1 : RawEntry :=
    { entry with
      processing_status := ProcessingStatus.processing
      processing_attempts := entry.processing_attempts + 1 }
  if optTruthy extraction.cve_id then
    let cve := extraction.cve_id.getD []
    match dbGetVulnerability store cve with
    | some existing =>
      if existing.confidence_score < extraction.confidence_score then
        let upd := updated_vulnerability existing extraction now
        { entry :=
            { entry1 with
              processing_status := ProcessingStatus.completed
              processed_at := some now }
          store := storeReplace store cve upd
          result := some upd }
      else
        { entry :=
            { entry1 with
              processing_status := ProcessingStatus.completed
              processed_at := some now }
          store := store
          result := none }
    | none =>
      let v := new_vulnerability cve extraction now
      { entry :=
          { entry1 with
            processing_status := ProcessingStatus.completed
            processed_at := some now }
        store := store ++ [v]
        result := some v }
  else
    { entry :=
        { entry1 with
          processing_status := ProcessingStatus.failed
          last_processing_error := some no_cve_error
          processed_at := some now }
      store := store
      result := none }

/-- The entry mutation of the `except` branch of `process_entry` (lines
209-215): the attempt was already incremented, the status becomes
`FAILED` and the exception message is recorded. -/
def entry_after_exception (e : RawEntry) (err : List Char) (now : Nat) :
    RawEntry :=
  { e with
    processing_status := ProcessingStatus.failed
    processing_attempts := e.processing_attempts + 1
    last_processing_error := some err
    processed_at := some now }

/-- The `WHERE` clause of `get_pending_entries` (lines 101-108):
status `PENDING`, or `FAILED` with fewer than 3 attempts. -/
def entry_selectable (e : RawEntry) : Bool :=
  decide (e.processing_status = ProcessingStatus.pending ∨
    (e.processing_status = ProcessingStatus.failed ∧
      e.processing_attempts < 3))

/-- `ProcessingService.get_pending_entries` (lines 84-112): filter,
order by `ingested_at`, limit. -/
def get_pending_entries (limit : Nat) (entries : List RawEntry) :
    List RawEntry :=
  (((entries.filter entry_selectable).mergeSort
    (fun a b => decide (a.ingested_at ≤ b.ingested_at))).take limit)

/-! ### Batch statistics (`ProcessingService.process_batch`) -/

/-- The counters of `ProcessingStats` that `process_batch` accumulates
(`processing_service.py` lines 27-63). -/
structure BatchStats where
  processed : Nat
  created : Nat
  updated : Nat
  failed : Nat
  skipped : Nat
  duplicates : Nat
deriving DecidableEq

/-- A fresh `ProcessingStats()`. -/
def init_stats : BatchStats :=
  { processed := 0, created := 0, updated := 0, failed := 0, skipped := 0,
    duplicates := 0 }

/-- The per-entry statistics update of `process_batch` (lines 266-280):
a returned vulnerability is classified as a creation or an update *after
the fact*, by comparing its `created_at` and `updated_at` columns. -/
def record_entry_stats (stats : BatchStats) (o : EntryOutcome) : BatchStats :=
  let stats1 := { stats with processed := stats.processed + 1 }
  match o.result with
  | some result =>
    if result.created_at = result.updated_at then
      { stats1 with created := stats1.created + 1 }
    else
      { stats1 with
        updated := stats1.updated + 1
        duplicates := stats1.duplicates + 1 }
  | none =>
    if o.entry.processing_status = ProcessingStatus.failed then
      { stats1 with failed := stats1.failed + 1 }
    else
      { stats1 with
        skipped := stats1.skipped + 1
        duplicates := stats1.duplicates + 1 }

/-- One selected entry of a batch, with the extraction result the engine
returns for it and the clock tick at which it is processed. -/
structure BatchItem where
  entry : RawEntry
  extraction : ExtractionResult
  now : Nat

/-- The sequential entry loop of `process_batch` (lines 263-280) over the
already-selected entries. -/
def process_batch_items (items : List BatchItem) (store : List Vulnerability)
    (stats : BatchStats) : BatchStats × List Vulnerability :=
  match items with
  | [] => (stats, store)
  | item :: rest =>
    let o := process_entry item.now item.entry item.extraction store
    process_batch_items rest o.store (record_entry_stats stats o)

/-! ### Pipeline state machine

`process_batch` selects entries with `get_pending_entries` and processes
them strictly sequentially, each selected entry exactly once.  A single
processed entry therefore changes as `process_entry` (or its `except`
branch) dictates, and only entries satisfying the selection predicate are
ever processed.  `PipeStep` is that per-entry transition; `PipeReach`
closes it over ingestion-fresh initial states (column defaults: status
`PENDING`, zero attempts). -/

/-- One entry-processing transition of the pipeline: some selectable
entry is processed, either through `process_entry`'s normal path (with an
arbitrary extraction result and store) or through its exception
branch. -/
inductive PipeStep : List RawEntry → List RawEntry → Prop
  | extract (pre post : List RawEntry) (e : RawEntry)
      (extraction : ExtractionResult) (store : List Vulnerability) (now : Nat)
      (hsel : entry_selectable e = true) :
      PipeStep (pre ++ e :: post)
        (pre ++ (process_entry now e extraction store).entry :: post)
  | failure (pre post : List RawEntry) (e : RawEntry) (err : List Char)
      (now : Nat) (hsel : entry_selectable e = true) :
      PipeStep (pre ++ e :: post)
        (pre ++ entry_after_exception e err now :: post)

/-- Pipeline states reachable from an ingestion-fresh table. -/
inductive PipeReach : List RawEntry → Prop
  | init (entries : List RawEntry)
      (h : ∀ e ∈ entries,
        e.processing_status = ProcessingStatus.pending ∧
          e.processing_attempts = 0) :
      PipeReach entries
  | step (s t : List RawEntry) (hs : PipeReach s) (hst : PipeStep s t) :
      PipeReach t

/-- Keys of the vulnerabilities table are pairwise distinct (the
`cve_id` primary-key constraint). -/
def storeKeysNodup (store : List Vulnerability) : Prop :=
  (store.map Vulnerability.cve_id).Nodup

/-! ### Concrete instances and auxiliary definitions used by the
theorems below -/

/-- The signal sum `S` exactly as the claim words it: 30 if `cve_id` is
present, 10 each for `vendor`, `product` and `title`, 15 if severity is
set and not `UNKNOWN`, 10 if `cvss_score` is present, and 15/10/5/0 by
description length. -/
def spec_signal_score (v : Validated) : ℚ :=
  (if v.cve_id.isSome then 30 else 0) +
  (if v.vendor.isSome then 10 else 0) +
  (if v.product.isSome then 10 else 0) +
  (if v.severity ≠ UNKNOWN_sev then 15 else 0) +
  (if v.cvss_score.isSome then 10 else 0) +
  (if 50 ≤ v.description.length then 15
    else if 20 ≤ v.description.length then 10
    else if 10 ≤ v.description.length then 5 else 0) +
  (if v.title.isSome then 10 else 0)

/-- The claim's confidence formula:
`round(clamp(0, 1, S/100 - min(0.20, 0.05 * issue_count)), 3)`. -/
def spec_confidence (v : Validated) : ℚ :=
  round3 (max 0 (min 1 (spec_signal_score v / 100 -
    min (20 / 100) ((5 / 100) * (v.validation_issues.length : ℚ)))))

/-- The provider supplied a truthy `cve_id` that full-matches the CVE
pattern after uppercasing and stripping — the only case in which
`_validate_extraction` does not fall back to scanning the raw text. -/
def provider_cve_accepted (cve_id : Option (List Char)) : Bool :=
  optTruthy cve_id && cveFullmatch (pyStrip (pyUpper (cve_id.getD [])))

/-- The concrete providers of the C5 scenario: a primary whose call
raises a connection error, and a fallback whose call succeeds. -/
def scenario_primary : Provider :=
  { provider_name := "ollama".data
    outcome := Except.error (ProviderError.connection ("connection refused".data)) }

/-- The succeeding fallback provider of the C5 scenario. -/
def scenario_fallback : Provider :=
  { provider_name := "claude".data
    outcome := Except.ok emptyLLMData }

/-- A plain metadata value for concrete pipeline examples. -/
def plain_meta : ExtractionMetadata :=
  { error := none, fallback := false, validation_issues := [],
    provider := none, fallback_attempt := none }

/-- A stored vulnerability with confidence 1/2 and a set title. -/
def c6_existing : Vulnerability :=
  { cve_id := "CVE-2024-0001".data
    title := some ("Old title".data)
    description := "Old description".data
    severity := some ("HIGH".data)
    cvss_score := some 5
    cvss_vector := none
    confidence_score := 1/2
    needs_review := true
    extraction_metadata := plain_meta
    created_at := 0
    updated_at := 0 }

/-- A higher-confidence extraction for the same CVE whose `title` is
`None`. -/
def c6_extraction : ExtractionResult :=
  { cve_id := some ("CVE-2024-0001".data)
    title := none
    description := "A new long description of the flaw".data
    vendor := none
    product := none
    severity := some ("CRITICAL".data)
    cvss_score := some 9
    cvss_vector := none
    confidence_score := 9/10
    needs_review := false
    extraction_metadata := plain_meta }

/-- A fresh pending raw entry. -/
def c6_entry : RawEntry :=
  { id := 1, raw_payload := "raw".data
    processing_status := ProcessingStatus.pending
    processing_attempts := 0, last_processing_error := none
    ingested_at := 0, processed_at := none }

/-- The inductive invariant: attempts stay at or below the retry
ceiling, and an entry still PENDING has never been attempted. -/
def entry_attempt_inv (e : RawEntry) : Prop :=
  e.processing_attempts ≤ 3 ∧
    (e.processing_status = ProcessingStatus.pending →
      e.processing_attempts = 0)

/-- An ingestion-fresh entry for the C8 witness. -/
def c8_entry0 : RawEntry :=
  { id := 0, raw_payload := "payload".data
    processing_status := ProcessingStatus.pending
    processing_attempts := 0, last_processing_error := none
    ingested_at := 0, processed_at := none }

/-- The C8 entry after its third failed attempt. -/
def c8_exhausted : RawEntry :=
  entry_after_exception
    (entry_after_exception
      (entry_after_exception c8_entry0 ("timeout".data) 0)
      ("timeout".data) 1)
    ("timeout".data) 2

/-- The provider output of the C9 scenario: invalid severity
`SUPER_HIGH`, out-of-range CVSS 15.0, no CVE id. -/
def c9_data : LLMData :=
  { emptyLLMData with
    severity := some ("SUPER_HIGH".data)
    cvss_score := some (PyFloatArg.val 15) }

/-- First pending entry of the C10 batch. -/
def c10_entry1 : RawEntry :=
  { id := 1, raw_payload := "first report".data
    processing_status := ProcessingStatus.pending
    processing_attempts := 0, last_processing_error := none
    ingested_at := 0, processed_at := none }

/-- Second pending entry of the C10 batch. -/
def c10_entry2 : RawEntry :=
  { id := 2, raw_payload := "second report".data
    processing_status := ProcessingStatus.pending
    processing_attempts := 0, last_processing_error := none
    ingested_at := 1, processed_at := none }

/-- Low-confidence extraction inserting CVE-2024-0001. -/
def c10_ex1 : ExtractionResult :=
  { cve_id := some ("CVE-2024-0001".data)
    title := none, description := "First report of the issue".data
    vendor := none, product := none, severity := some ("HIGH".data)
    cvss_score := none, cvss_vector := none
    confidence_score := 1/5, needs_review := true
    extraction_metadata := plain_meta }

/-- Higher-confidence extraction for the same CVE. -/
def c10_ex2 : ExtractionResult :=
  { cve_id := some ("CVE-2024-0001".data)
    title := some ("Auth bypass".data)
    description := "A much better description of the issue".data
    vendor := none, product := none, severity := some ("CRITICAL".data)
    cvss_score := some 9, cvss_vector := none
    confidence_score := 9/10, needs_review := false
    extraction_metadata := plain_meta }

/-- The row inserted by the first entry (both timestamp defaults at
tick 5). -/
def c10_v1 : Vulnerability := new_vulnerability ("CVE-2024-0001".data) c10_ex1 5

/-- The C10 batch: both entries processed at clock tick 5 (two events
within one `datetime.utcnow` timestamp). -/
def c10_items : List BatchItem :=
  [{ entry := c10_entry1, extraction := c10_ex1, now := 5 },
    { entry := c10_entry2, extraction := c10_ex2, now := 5 }]

/-! ### Shape lemmas about the validated data -/

lemma cveMatchAt_ne_nil {s m : List Char} (h : cveMatchAt s = some m) :
    m ≠ [] := by
  unfold cveMatchAt at h
  split at h
  · split at h
    · simp only [Option.some.injEq] at h
      subst h
      simp
    · simp at h
  · simp at h

lemma cveSearch_ne_nil (s : List Char) :
    ∀ m, cveSearch s = some m → m ≠ [] := by
  induction s with
  | nil => intro m h; simp [cveSearch] at h
  | cons c rest ih =>
    intro m h
    unfold cveSearch at h
    cases hm : cveMatchAt (c :: rest) with
    | some m0 =>
      rw [hm] at h
      simp only [Option.some.injEq] at h
      subst h
      exact cveMatchAt_ne_nil hm
    | none =>
      rw [hm] at h
      exact ih m h

lemma pyUpper_ne_nil {s : List Char} (h : s ≠ []) : pyUpper s ≠ [] := by
  simpa [pyUpper] using h

lemma cveFullmatch_ne_nil {s : List Char} (h : cveFullmatch s = true) :
    s ≠ [] := by
  unfold cveFullmatch at h
  cases hm : cveMatchAt s with
  | some m =>
    rw [hm] at h
    have hms : m = s := by simpa using h
    subst hms
    exact cveMatchAt_ne_nil hm
  | none => rw [hm] at h; simp at h

lemma validateStrField_ne_nil {o : Option (List Char)} {t : List Char}
    (h : validateStrField o = some t) : t ≠ [] := by
  cases o with
  | none => simp [validateStrField] at h
  | some s =>
    simp only [validateStrField] at h
    split at h
    · rename_i hc
      simp only [Option.some.injEq] at h
      subst h
      simp only [Bool.and_eq_true, Bool.not_eq_true'] at hc
      simpa [List.isEmpty_iff] using hc.2
    · simp at h

lemma validate_cve_field_ne_nil (cve_id : Option (List Char))
    (raw_text : List Char) :
    ∀ c, (validate_cve_field cve_id raw_text).1 = some c → c ≠ [] := by
  intro c h
  unfold validate_cve_field at h
  split at h
  · split at h
    · simp only [Option.some.injEq] at h
      subst h
      rename_i hfull
      exact cveFullmatch_ne_nil hfull
    · rcases hm : cveSearch raw_text with _ | m <;> rw [hm] at h
      · simp at h
      · simp only [Option.some.injEq] at h
        subst h
        exact pyUpper_ne_nil (cveSearch_ne_nil raw_text m hm)
  · rcases hm : cveSearch raw_text with _ | m <;> rw [hm] at h
    · simp at h
    · simp only [Option.some.injEq] at h
      subst h
      exact pyUpper_ne_nil (cveSearch_ne_nil raw_text m hm)

lemma validate_severity_field_mem (severity : Option (List Char)) :
    (validate_severity_field severity).1 ∈ VALID_SEVERITIES := by
  unfold validate_severity_field
  split
  · split
    · assumption
    · simp [VALID_SEVERITIES, UNKNOWN_sev]
  · simp [VALID_SEVERITIES, UNKNOWN_sev]

lemma valid_severities_ne_nil : ∀ s ∈ VALID_SEVERITIES, s ≠ [] := by decide

lemma optTruthy_eq_isSome {o : Option (List Char)}
    (h : ∀ c, o = some c → c ≠ []) : optTruthy o = o.isSome := by
  cases o with
  | none => rfl
  | some c =>
    have hc : c.isEmpty = false := by
      have := h c rfl
      simpa [List.isEmpty_iff] using this
    simp [optTruthy, hc]

/-! ### Bounds on the confidence score -/

lemma round3_nonneg_le_one {q : ℚ} (h0 : 0 ≤ q) (h1 : q ≤ 1) :
    0 ≤ round3 q ∧ round3 q ≤ 1 := by
  unfold round3
  have hl : (0 : ℤ) ≤ round (q * 1000) := by
    rw [round_eq]
    have : (0 : ℚ) ≤ q * 1000 + 1 / 2 := by linarith
    exact Int.floor_nonneg.mpr this
  have hu : round (q * 1000) ≤ 1000 := by
    rw [round_eq]
    have hle : q * 1000 + 1 / 2 ≤ 1000 + 1 / 2 := by linarith
    have h2 : ⌊q * 1000 + 1 / 2⌋ ≤ ⌊(1000 : ℚ) + 1 / 2⌋ := Int.floor_le_floor hle
    have h3 : ⌊(1000 : ℚ) + 1 / 2⌋ = 1000 := by
      apply Int.floor_eq_iff.mpr
      constructor <;> norm_num
    omega
  constructor
  · positivity
  · rw [div_le_one (by norm_num)]
    exact_mod_cast hu

lemma calculate_confidence_bounds (v : Validated) :
    0 ≤ calculate_confidence v ∧ calculate_confidence v ≤ 1 := by
  unfold calculate_confidence
  apply round3_nonneg_le_one
  · exact le_max_left 0 _
  · exact max_le (by norm_num) (min_le_left 1 _)

/-! ### C1 — the confidence formula -/

lemma min_penalty_eq (n : ℕ) :
    min ((n : ℚ) * 5) 20 / 100 = min (20 / 100) ((5 / 100) * (n : ℚ)) := by
  rcases le_total ((n : ℚ) * 5) 20 with h | h
  · rw [min_eq_left h, min_eq_right (by linarith)]
    ring
  · rw [min_eq_right h, min_eq_left (by linarith)]

/-- C1: for every validated extraction, the computed confidence equals
the claim's formula `round(clamp(0,1, S/100 - min(0.20, 0.05 *
issue_count)), 3)` with `S` the weighted signal sum of the claim. -/
theorem confidence_formula_matches_spec (data : LLMData)
    (raw_text : List Char) :
    calculate_confidence (validate_extraction data raw_text) =
      spec_confidence (validate_extraction data raw_text) := by
  set v := validate_extraction data raw_text with hv
  have hcve : optTruthy v.cve_id = v.cve_id.isSome :=
    optTruthy_eq_isSome (by
      intro c hc
      exact validate_cve_field_ne_nil data.cve_id raw_text c (by rw [hv] at hc; exact hc))
  have hven : optTruthy v.vendor = v.vendor.isSome :=
    optTruthy_eq_isSome (by
      intro c hc
      exact validateStrField_ne_nil (by rw [hv] at hc; exact hc))
  have hpro : optTruthy v.product = v.product.isSome :=
    optTruthy_eq_isSome (by
      intro c hc
      exact validateStrField_ne_nil (by rw [hv] at hc; exact hc))
  have htit : optTruthy v.title = v.title.isSome :=
    optTruthy_eq_isSome (by
      intro c hc
      exact validateStrField_ne_nil (by rw [hv] at hc; exact hc))
  have hsevne : v.severity ≠ [] := by
    apply valid_severities_ne_nil
    rw [hv]
    exact validate_severity_field_mem data.severity
  have hsev : (v.severity ≠ [] ∧ v.severity ≠ UNKNOWN_sev) ↔
      v.severity ≠ UNKNOWN_sev := by
    constructor
    · exact fun h => h.2
    · exact fun h => ⟨hsevne, h⟩
  unfold calculate_confidence spec_confidence spec_signal_score
  rw [hcve, hven, hpro, htit]
  simp only [hsev]
  rw [min_penalty_eq]
  norm_num

/-! ### C2 — confidence bounds and the needs-review flag -/

/-- C2 (amended): every result of `extract_vulnerability` has
`confidence_score ∈ [0, 1]`; on the successful-validation path
`needs_review` holds iff the confidence is strictly below the configured
threshold, while on the error-fallback path `needs_review` is
unconditionally true (so the biconditional holds there only for
thresholds above the fallback confidence, e.g. the default 0.8). -/
theorem extraction_confidence_invariant (threshold : ℚ)
    (outcome : Except (List Char) LLMData) (raw_text : List Char) :
    0 ≤ (extract_vulnerability threshold outcome raw_text).confidence_score ∧
    (extract_vulnerability threshold outcome raw_text).confidence_score ≤ 1 ∧
    (match outcome with
      | Except.ok _ =>
        ((extract_vulnerability threshold outcome raw_text).needs_review = true ↔
          (extract_vulnerability threshold outcome raw_text).confidence_score <
            threshold)
      | Except.error _ =>
        (extract_vulnerability threshold outcome raw_text).needs_review = true) := by
  cases outcome with
  | ok extracted_data =>
    have hb := calculate_confidence_bounds (validate_extraction extracted_data raw_text)
    refine ⟨hb.1, hb.2, ?_⟩
    simp [extract_vulnerability]
  | error e =>
    refine ⟨?_, ?_, rfl⟩
    · simp only [extract_vulnerability, create_fallback_result]
      split <;> norm_num
    · simp only [extract_vulnerability, create_fallback_result]
      split <;> norm_num

/-- C2 counterexample to the claim as stated: with the threshold
configured to 1/20, a provider failure on a text containing a CVE id
yields the fallback result with confidence 1/10 and `needs_review`
hard-coded to true, although 1/10 is not below the threshold — so
`needs_review ⇔ confidence < threshold` fails for that threshold
value. -/
theorem claim_c2_counterexample :
    (extract_vulnerability (1/20)
        (Except.error ("connection refused".data))
        ("CVE-2024-0001".data)).needs_review = true ∧
    ¬((extract_vulnerability (1/20)
        (Except.error ("connection refused".data))
        ("CVE-2024-0001".data)).confidence_score < 1/20) := by
  constructor
  · rfl
  · have hcve : ((cveSearch ("CVE-2024-0001".data)).map pyUpper).isSome = true := by
      decide
    simp only [extract_vulnerability, create_fallback_result, hcve]
    norm_num

/-! ### C3 — CVE recovery from the raw text -/

lemma validate_cve_field_isSome (cve_id : Option (List Char))
    {raw_text m : List Char} (hm : cveSearch raw_text = some m) :
    ((validate_cve_field cve_id raw_text).1).isSome = true := by
  unfold validate_cve_field
  split
  · split
    · rfl
    · rw [hm]
      rfl
  · rw [hm]
    rfl

lemma validate_cve_field_not_accepted (cve_id : Option (List Char))
    {raw_text m : List Char} (hm : cveSearch raw_text = some m)
    (hacc : provider_cve_accepted cve_id = false) :
    (validate_cve_field cve_id raw_text).1 = some (pyUpper m) := by
  unfold provider_cve_accepted at hacc
  unfold validate_cve_field
  rcases ht : optTruthy cve_id with _ | _
  · rw [if_neg (by simp [ht]), hm]
  · rw [ht] at hacc
    simp only [Bool.true_and] at hacc
    rw [if_pos rfl, if_neg (by simp [hacc]), hm]

/-- C3 counterexample to the claim as stated: when the provider returns
a syntactically valid CVE id, validation keeps it even when the raw text
contains a different CVE id — the result's `cve_id` is then not the
raw text's match. -/
theorem claim_c3_counterexample :
    cveSearch ("CVE-2024-1111 overflow".data) = some ("CVE-2024-1111".data) ∧
    (extract_vulnerability (4/5)
        (Except.ok { emptyLLMData with cve_id := some ("CVE-2020-9999".data) })
        ("CVE-2024-1111 overflow".data)).cve_id = some ("CVE-2020-9999".data) ∧
    ("CVE-2020-9999".data ≠ "CVE-2024-1111".data) := by
  refine ⟨by decide, ?_, by decide⟩
  show (validate_extraction _ _).cve_id = _
  decide

/-- C3 (amended): when the raw text contains a CVE-pattern match `m`,
every extraction result has a (nonempty) `cve_id`; it equals `m`
uppercased on the error-fallback path and on every successful path in
which the provider did not itself supply a truthy, pattern-valid
`cve_id` (in that last case the provider's value wins and may differ
from the raw text's match). -/
theorem extraction_recovers_raw_cve (threshold : ℚ)
    (raw_text m : List Char) (hm : cveSearch raw_text = some m) :
    (∀ err, (extract_vulnerability threshold (Except.error err) raw_text).cve_id =
      some (pyUpper m)) ∧
    (∀ data,
      ((extract_vulnerability threshold (Except.ok data) raw_text).cve_id).isSome =
        true) ∧
    (∀ data, provider_cve_accepted data.cve_id = false →
      (extract_vulnerability threshold (Except.ok data) raw_text).cve_id =
        some (pyUpper m)) := by
  refine ⟨?_, ?_, ?_⟩
  · intro err
    simp [extract_vulnerability, create_fallback_result, hm]
  · intro data
    show ((validate_extraction data raw_text).cve_id).isSome = true
    exact validate_cve_field_isSome data.cve_id hm
  · intro data hacc
    show (validate_extraction data raw_text).cve_id = some (pyUpper m)
    exact validate_cve_field_not_accepted data.cve_id hm hacc

/-- Witness for C3's amended theorem at a concrete input. -/
theorem extraction_recovers_raw_cve_witness :
    cveSearch ("see CVE-2024-1234 advisory".data) = some ("CVE-2024-1234".data) ∧
    (extract_vulnerability (4/5) (Except.error ("boom".data))
        ("see CVE-2024-1234 advisory".data)).cve_id =
      some (pyUpper ("CVE-2024-1234".data)) := by
  have hm : cveSearch ("see CVE-2024-1234 advisory".data) =
      some ("CVE-2024-1234".data) := by decide
  exact ⟨hm,
    (extraction_recovers_raw_cve (4/5) _ _ hm).1 ("boom".data)⟩

/-! ### C4 — the error-fallback result -/

/-- C4: a connection / generation error from the provider call never
escapes `extract_vulnerability`: the result is exactly
`_create_fallback_result`, whose `cve_id` is the uppercased regex match
of the raw text (unset when there is none), description is the first
500 characters of the raw text, severity is `UNKNOWN`, confidence is
0.1 when a CVE id was salvaged and 0.0 otherwise, `needs_review` is
true, and the metadata records the error and the fallback flag. -/
theorem provider_error_yields_fallback (threshold : ℚ)
    (raw_text err : List Char) :
    extract_vulnerability threshold (Except.error err) raw_text =
      create_fallback_result raw_text err ∧
    (create_fallback_result raw_text err).cve_id =
      (cveSearch raw_text).map pyUpper ∧
    (create_fallback_result raw_text err).title = none ∧
    (create_fallback_result raw_text err).description = raw_text.take 500 ∧
    (create_fallback_result raw_text err).vendor = none ∧
    (create_fallback_result raw_text err).product = none ∧
    (create_fallback_result raw_text err).severity = some UNKNOWN_sev ∧
    (create_fallback_result raw_text err).cvss_score = none ∧
    (create_fallback_result raw_text err).confidence_score =
      (if (cveSearch raw_text).isSome then 1/10 else 0) ∧
    (create_fallback_result raw_text err).needs_review = true ∧
    (create_fallback_result raw_text err).extraction_metadata.error = some err ∧
    (create_fallback_result raw_text err).extraction_metadata.fallback = true := by
  refine ⟨rfl, rfl, rfl, rfl, rfl, rfl, rfl, rfl, ?_, rfl, rfl, rfl⟩
  simp [create_fallback_result, Option.isSome_map]

/-! ### C5 — ordered provider fallback -/

lemma multi_go_past_ceiling (threshold : ℚ) (max_retries : Nat)
    (raw_text : List Char) (attempt : Nat) (l : List Provider)
    (last_error : Option ProviderError) (h : max_retries ≤ attempt) :
    multi_extract_go threshold max_retries raw_text attempt l last_error =
      create_fallback_result raw_text (all_failed_msg last_error) := by
  cases l with
  | nil => rfl
  | cons p rest => simp [multi_extract_go, if_pos h]

lemma last_error_after_cons (p : Provider) (ps : List Provider)
    (init : Option ProviderError) (e : ProviderError)
    (he : p.outcome = Except.error e) :
    last_error_after (p :: ps) init = last_error_after ps (some e) := by
  simp [last_error_after, he]

lemma multi_go_skip_errors (threshold : ℚ) (max_retries : Nat)
    (raw_text : List Char) (ps : List Provider) :
    ∀ (attempt : Nat) (rest : List Provider)
      (last_error : Option ProviderError),
      (∀ p ∈ ps, ∃ e, p.outcome = Except.error e) →
      attempt + ps.length ≤ max_retries →
      multi_extract_go threshold max_retries raw_text attempt (ps ++ rest)
          last_error =
        multi_extract_go threshold max_retries raw_text (attempt + ps.length)
          rest (last_error_after ps last_error) := by
  induction ps with
  | nil =>
    intro attempt rest last_error _ _
    simp [last_error_after]
  | cons p ps ih =>
    intro attempt rest last_error hall hle
    obtain ⟨e, he⟩ := hall p (List.mem_cons_self p ps)
    have hlt : ¬ (max_retries ≤ attempt) := by
      simp only [List.length_cons] at hle
      omega
    have step : multi_extract_go threshold max_retries raw_text attempt
        ((p :: ps) ++ rest) last_error =
        multi_extract_go threshold max_retries raw_text (attempt + 1)
          (ps ++ rest) (some e) := by
      simp only [List.cons_append, multi_extract_go, if_neg hlt, he]
      rfl
    rw [step,
      ih (attempt + 1) rest (some e)
        (fun q hq => hall q (List.mem_cons_of_mem p hq))
        (by simp only [List.length_cons] at hle; omega),
      last_error_after_cons p ps last_error e he, List.length_cons,
      show attempt + 1 + ps.length = attempt + (ps.length + 1) from by omega]

/-- C5: the multi-provider service tries providers in list order
(primary first): with `ps` an all-failing prefix of the chain, (a) if
`ps.length < max_retries` and the next provider `p` returns parsed JSON,
the loop short-circuits at `p` — the result is `p`'s success result, and
its metadata records `p`'s name as provider and `fallback_attempt =
ps.length` (so one failing primary plus one succeeding fallback gives
`fallback_attempt = 1`); (b) once `max_retries` providers have failed,
the remaining providers are never consulted: the result is the shared
fallback result tagged with the last error seen. -/
theorem multi_provider_fallback_chain (threshold : ℚ) (max_retries : Nat)
    (raw_text : List Char) (primary : Provider) (fallbacks : List Provider)
    (ps qs : List Provider) (p : Provider) (data : LLMData)
    (hdec : primary :: fallbacks = ps ++ p :: qs)
    (hps : ∀ q ∈ ps, ∃ e, q.outcome = Except.error e) :
    (ps.length < max_retries → p.outcome = Except.ok data →
      multi_extract_vulnerability threshold max_retries primary fallbacks
          raw_text =
        multi_success_result threshold raw_text p.provider_name ps.length
          data ∧
      (multi_extract_vulnerability threshold max_retries primary fallbacks
          raw_text).extraction_metadata.provider = some p.provider_name ∧
      (multi_extract_vulnerability threshold max_retries primary fallbacks
          raw_text).extraction_metadata.fallback_attempt = some ps.length) ∧
    (max_retries ≤ ps.length →
      multi_extract_vulnerability threshold max_retries primary fallbacks
          raw_text =
        create_fallback_result raw_text
          (all_failed_msg
            (last_error_after (ps.take max_retries) none))) := by
  constructor
  · intro hlen hok
    have hmain : multi_extract_vulnerability threshold max_retries primary
        fallbacks raw_text =
        multi_success_result threshold raw_text p.provider_name ps.length
          data := by
      unfold multi_extract_vulnerability
      rw [hdec,
        multi_go_skip_errors threshold max_retries raw_text ps 0 (p :: qs)
          none hps (by omega)]
      simp only [Nat.zero_add, multi_extract_go, if_neg (by omega : ¬ (max_retries ≤ ps.length)), hok]
    refine ⟨hmain, ?_, ?_⟩ <;> rw [hmain] <;> rfl
  · intro hlen
    unfold multi_extract_vulnerability
    have hsplit : ps ++ p :: qs =
        ps.take max_retries ++ (ps.drop max_retries ++ p :: qs) := by
      rw [← List.append_assoc, List.take_append_drop]
    have htake : ∀ q ∈ ps.take max_retries, ∃ e, q.outcome = Except.error e :=
      fun q hq => hps q (List.mem_of_mem_take hq)
    have hlentake : (ps.take max_retries).length = max_retries := by
      rw [List.length_take]
      omega
    rw [hdec, hsplit,
      multi_go_skip_errors threshold max_retries raw_text
        (ps.take max_retries) 0 (ps.drop max_retries ++ p :: qs) none htake
        (by omega),
      multi_go_past_ceiling threshold max_retries raw_text _ _ _ (by omega)]

/-- Witness for C5 at the claim's scenario: primary raises
`ConnectionError`, the single fallback succeeds, and the result's
metadata records `fallback_attempt = 1` and the fallback's name. -/
theorem multi_provider_fallback_chain_witness :
    (multi_extract_vulnerability (4/5) 3 scenario_primary [scenario_fallback]
        ("CVE-2024-0001 text".data)).extraction_metadata.fallback_attempt =
      some 1 ∧
    (multi_extract_vulnerability (4/5) 3 scenario_primary [scenario_fallback]
        ("CVE-2024-0001 text".data)).extraction_metadata.provider =
      some ("claude".data) := by
  have hps : ∀ q ∈ [scenario_primary], ∃ e, q.outcome = Except.error e := by
    intro q hq
    rw [List.mem_singleton] at hq
    subst hq
    exact ⟨ProviderError.connection ("connection refused".data), rfl⟩
  have h := multi_provider_fallback_chain (4/5) 3 ("CVE-2024-0001 text".data)
    scenario_primary [scenario_fallback] [scenario_primary] []
    scenario_fallback emptyLLMData rfl hps
  have ha := h.1 (by norm_num) rfl
  exact ⟨ha.2.2, ha.2.1⟩

/-! ### C6 — reconciliation of duplicates -/

/-- C6 counterexample to the claim as stated: in the higher-confidence
update branch the mutable fields are merged with Python `or`, not
overwritten — here the extraction's `title` is `None`, its confidence
strictly exceeds the stored one, yet the updated row keeps the old
title instead of taking the extraction's value. -/
theorem claim_c6_counterexample :
    c6_existing.confidence_score < c6_extraction.confidence_score ∧
    c6_extraction.title = none ∧
    ((process_entry 1 c6_entry c6_extraction [c6_existing]).result.map
        Vulnerability.title) = some (some ("Old title".data)) := by
  refine ⟨by norm_num [c6_existing, c6_extraction], rfl, ?_⟩
  have htr : optTruthy c6_extraction.cve_id = true := rfl
  have hfound : dbGetVulnerability [c6_existing]
      (c6_extraction.cve_id.getD []) = some c6_existing := by
    unfold dbGetVulnerability
    rw [List.find?_cons_of_pos _ (by decide)]
  simp only [process_entry, htr, if_true, hfound]
  rw [if_pos (by norm_num [c6_existing, c6_extraction] :
    c6_existing.confidence_score < c6_extraction.confidence_score)]
  rfl

/-- C6 (amended): when reconciliation finds a stored row for the
extracted CVE id, (a) with strictly higher extraction confidence the row
is replaced by `updated_vulnerability`, whose truthy extraction fields
overwrite the stored ones while falsy extraction values (`None`, empty
string, `0.0` CVSS) keep the stored values, and whose confidence,
needs-review flag, metadata and `updated_at` timestamp are taken from
the extraction unconditionally (`cve_id` and `created_at` are
preserved); (b) with lower-or-equal confidence nothing in the store is
mutated; in both branches the raw entry is marked COMPLETED. -/
theorem reconciliation_update_rules (now : Nat) (entry : RawEntry)
    (extraction : ExtractionResult) (store : List Vulnerability)
    (cve : List Char) (existing : Vulnerability)
    (hcve : extraction.cve_id = some cve) (hne : cve ≠ [])
    (hfound : dbGetVulnerability store cve = some existing) :
    (existing.confidence_score < extraction.confidence_score →
      (process_entry now entry extraction store).result =
        some (updated_vulnerability existing extraction now) ∧
      (process_entry now entry extraction store).store =
        storeReplace store cve (updated_vulnerability existing extraction now) ∧
      (process_entry now entry extraction store).entry.processing_status =
        ProcessingStatus.completed) ∧
    (extraction.confidence_score ≤ existing.confidence_score →
      (process_entry now entry extraction store).store = store ∧
      (process_entry now entry extraction store).result = none ∧
      (process_entry now entry extraction store).entry.processing_status =
        ProcessingStatus.completed) ∧
    (updated_vulnerability existing extraction now).title =
      (if optTruthy extraction.title then extraction.title
        else existing.title) ∧
    (updated_vulnerability existing extraction now).description =
      (if extraction.description.isEmpty then existing.description
        else extraction.description) ∧
    (updated_vulnerability existing extraction now).severity =
      (if optTruthy extraction.severity then extraction.severity
        else existing.severity) ∧
    (updated_vulnerability existing extraction now).cvss_score =
      (match extraction.cvss_score with
        | some q => if q = 0 then existing.cvss_score else some q
        | none => existing.cvss_score) ∧
    (updated_vulnerability existing extraction now).cvss_vector =
      (if optTruthy extraction.cvss_vector then extraction.cvss_vector
        else existing.cvss_vector) ∧
    (updated_vulnerability existing extraction now).confidence_score =
      extraction.confidence_score ∧
    (updated_vulnerability existing extraction now).needs_review =
      extraction.needs_review ∧
    (updated_vulnerability existing extraction now).extraction_metadata =
      extraction.extraction_metadata ∧
    (updated_vulnerability existing extraction now).updated_at = now ∧
    (updated_vulnerability existing extraction now).created_at =
      existing.created_at ∧
    (updated_vulnerability existing extraction now).cve_id =
      existing.cve_id := by
  have htr : optTruthy extraction.cve_id = true := by
    rw [hcve]
    simpa [optTruthy, List.isEmpty_iff] using hne
  have hgetD : extraction.cve_id.getD [] = cve := by rw [hcve]; rfl
  refine ⟨?_, ?_, rfl, rfl, rfl, rfl, rfl, rfl, rfl, rfl, rfl, rfl, rfl⟩
  · intro hlt
    simp only [process_entry, htr, if_true, hgetD, hfound]
    rw [if_pos hlt]
    exact ⟨rfl, rfl, rfl⟩
  · intro hle
    simp only [process_entry, htr, if_true, hgetD, hfound]
    rw [if_neg (not_lt.mpr hle)]
    exact ⟨rfl, rfl, rfl⟩

/-- Witness for C6's amended theorem at the concrete duplicate above. -/
theorem reconciliation_update_rules_witness :
    (process_entry 1 c6_entry c6_extraction
        [c6_existing]).entry.processing_status =
      ProcessingStatus.completed ∧
    (process_entry 1 c6_entry c6_extraction [c6_existing]).result =
      some (updated_vulnerability c6_existing c6_extraction 1) := by
  have hfound : dbGetVulnerability [c6_existing] ("CVE-2024-0001".data) =
      some c6_existing := by
    unfold dbGetVulnerability
    rw [List.find?_cons_of_pos _ (by decide)]
  have h := reconciliation_update_rules 1 c6_entry c6_extraction
    [c6_existing] ("CVE-2024-0001".data) c6_existing rfl (by decide) hfound
  have hlt : c6_existing.confidence_score < c6_extraction.confidence_score := by
    norm_num [c6_existing, c6_extraction]
  exact ⟨(h.1 hlt).2.2, (h.1 hlt).1⟩

/-! ### C7 — key uniqueness and idempotent reconciliation -/

lemma storeReplace_keys (store : List Vulnerability) (cve : List Char)
    (v : Vulnerability) (hv : v.cve_id = cve) :
    (storeReplace store cve v).map Vulnerability.cve_id =
      store.map Vulnerability.cve_id := by
  unfold storeReplace
  rw [List.map_map]
  apply List.map_congr_left
  intro w _
  by_cases h : w.cve_id = cve
  · simp [h, hv]
  · simp [h]

lemma process_entry_keys_nodup (now : Nat) (entry : RawEntry)
    (extraction : ExtractionResult) (store : List Vulnerability)
    (hnd : storeKeysNodup store) :
    storeKeysNodup (process_entry now entry extraction store).store := by
  unfold process_entry
  cases htr : optTruthy extraction.cve_id with
  | false => simpa using hnd
  | true =>
    simp only [if_true]
    cases hfind : dbGetVulnerability store (extraction.cve_id.getD []) with
    | some existing =>
      simp only [hfind]
      split
      · have hex : existing.cve_id = extraction.cve_id.getD [] := by
          have hp := List.find?_some hfind
          exact of_decide_eq_true hp
        show storeKeysNodup (storeReplace store _ _)
        unfold storeKeysNodup
        rw [storeReplace_keys store _ _ (by simp [updated_vulnerability, hex])]
        exact hnd
      · exact hnd
    | none =>
      simp only [hfind]
      have hnotin : extraction.cve_id.getD [] ∉
          store.map Vulnerability.cve_id := by
        intro hmem
        obtain ⟨w, hw, hweq⟩ := List.mem_map.mp hmem
        have hnone := List.find?_eq_none.mp hfind w hw
        simp [hweq] at hnone
      show storeKeysNodup (store ++ [new_vulnerability _ _ _])
      unfold storeKeysNodup
      rw [List.map_append]
      rw [List.nodup_append]
      refine ⟨hnd, by simp, ?_⟩
      intro a ha hb
      simp only [new_vulnerability, List.map_cons, List.map_nil,
        List.mem_singleton] at hb
      rw [hb] at ha
      exact hnotin ha

/-- C7: reconciliation keeps at most one vulnerability row per CVE id
(`process_entry` preserves distinctness of the `cve_id` primary keys),
and it is idempotent: processing the same extraction twice against an
initially empty store inserts exactly one row, and the second run is a
no-op skip (store untouched, no returned vulnerability, entry still
marked COMPLETED) because its confidence is not strictly greater than
the stored one. -/
theorem store_unique_and_reconciliation_idempotent :
    (∀ (now : Nat) (entry : RawEntry) (extraction : ExtractionResult)
      (store : List Vulnerability), storeKeysNodup store →
      storeKeysNodup (process_entry now entry extraction store).store) ∧
    (∀ (now now2 : Nat) (e1 e2 : RawEntry) (extraction : ExtractionResult),
      optTruthy extraction.cve_id = true →
      (process_entry now e1 extraction []).store =
        [new_vulnerability (extraction.cve_id.getD []) extraction now] ∧
      (process_entry now2 e2 extraction
          (process_entry now e1 extraction []).store).store =
        (process_entry now e1 extraction []).store ∧
      (process_entry now2 e2 extraction
          (process_entry now e1 extraction []).store).result = none ∧
      (process_entry now2 e2 extraction
          (process_entry now e1 extraction []).store).entry.processing_status =
        ProcessingStatus.completed) := by
  refine ⟨process_entry_keys_nodup, ?_⟩
  intro now now2 e1 e2 extraction htr
  have h1 : (process_entry now e1 extraction []).store =
      [new_vulnerability (extraction.cve_id.getD []) extraction now] := by
    unfold process_entry
    simp [htr, dbGetVulnerability]
  have hfind2 : dbGetVulnerability
      [new_vulnerability (extraction.cve_id.getD []) extraction now]
      (extraction.cve_id.getD []) =
      some (new_vulnerability (extraction.cve_id.getD []) extraction now) := by
    unfold dbGetVulnerability
    rw [List.find?_cons_of_pos _ (by simp [new_vulnerability])]
  have hnotlt : ¬ ((new_vulnerability (extraction.cve_id.getD []) extraction
      now).confidence_score < extraction.confidence_score) := by
    simp [new_vulnerability]
  refine ⟨h1, ?_, ?_, ?_⟩ <;>
    rw [h1] <;>
    simp only [process_entry, htr, if_true, hfind2] <;>
    rw [if_neg hnotlt]

/-- Witness for C7 at a concrete extraction and entry. -/
theorem store_unique_and_reconciliation_idempotent_witness :
    storeKeysNodup (process_entry 0 c6_entry c6_extraction []).store ∧
    (process_entry 1 c6_entry c6_extraction
        (process_entry 0 c6_entry c6_extraction []).store).result = none := by
  have h := store_unique_and_reconciliation_idempotent
  exact ⟨h.1 0 c6_entry c6_extraction [] (by simp [storeKeysNodup]),
    (h.2 0 1 c6_entry c6_entry c6_extraction (by decide)).2.2.1⟩

/-! ### C8 — batch selection and the retry ceiling -/

lemma mem_get_pending_entries {e : RawEntry} {limit : Nat}
    {entries : List RawEntry} (h : e ∈ get_pending_entries limit entries) :
    entry_selectable e = true := by
  unfold get_pending_entries at h
  have h1 : e ∈ (entries.filter entry_selectable).mergeSort
      (fun a b => decide (a.ingested_at ≤ b.ingested_at)) :=
    List.take_subset _ _ h
  rw [List.mem_mergeSort] at h1
  exact (List.mem_filter.mp h1).2

lemma process_entry_entry_attempts (now : Nat) (e : RawEntry)
    (extraction : ExtractionResult) (store : List Vulnerability) :
    (process_entry now e extraction store).entry.processing_attempts =
      e.processing_attempts + 1 := by
  unfold process_entry
  dsimp only
  split
  · split
    · split <;> rfl
    · rfl
  · rfl

lemma process_entry_entry_status (now : Nat) (e : RawEntry)
    (extraction : ExtractionResult) (store : List Vulnerability) :
    (process_entry now e extraction store).entry.processing_status =
      ProcessingStatus.completed ∨
    (process_entry now e extraction store).entry.processing_status =
      ProcessingStatus.failed := by
  unfold process_entry
  dsimp only
  split
  · split
    · split
      · exact Or.inl rfl
      · exact Or.inl rfl
    · exact Or.inl rfl
  · exact Or.inr rfl

lemma selectable_attempt_bound {e : RawEntry}
    (hsel : entry_selectable e = true) (hinv : entry_attempt_inv e) :
    e.processing_attempts + 1 ≤ 3 := by
  rcases of_decide_eq_true hsel with hp | ⟨_, hlt⟩
  · rw [hinv.2 hp]
    omega
  · omega

lemma pipe_step_inv {s t : List RawEntry} (hst : PipeStep s t)
    (hs : ∀ e ∈ s, entry_attempt_inv e) : ∀ e ∈ t, entry_attempt_inv e := by
  cases hst with
  | extract pre post e extraction store now hsel =>
    intro f hf
    rcases List.mem_append.mp hf with hf | hf
    · exact hs f (List.mem_append.mpr (Or.inl hf))
    · rcases List.mem_cons.mp hf with hf | hf
      · subst hf
        have hinv := hs e (List.mem_append.mpr (Or.inr (List.mem_cons_self e post)))
        constructor
        · rw [process_entry_entry_attempts]
          exact selectable_attempt_bound hsel hinv
        · intro hpend
          rcases process_entry_entry_status now e extraction store with hc | hc <;>
            rw [hc] at hpend <;> cases hpend
      · exact hs f (List.mem_append.mpr (Or.inr (List.mem_cons_of_mem e hf)))
  | failure pre post e err now hsel =>
    intro f hf
    rcases List.mem_append.mp hf with hf | hf
    · exact hs f (List.mem_append.mpr (Or.inl hf))
    · rcases List.mem_cons.mp hf with hf | hf
      · subst hf
        have hinv := hs e (List.mem_append.mpr (Or.inr (List.mem_cons_self e post)))
        refine ⟨selectable_attempt_bound hsel hinv, ?_⟩
        intro hpend
        cases hpend
      · exact hs f (List.mem_append.mpr (Or.inr (List.mem_cons_of_mem e hf)))

lemma pipe_reach_inv {s : List RawEntry} (hs : PipeReach s) :
    ∀ e ∈ s, entry_attempt_inv e := by
  induction hs with
  | init entries h =>
    intro e he
    refine ⟨?_, fun _ => (h e he).2⟩
    rw [(h e he).2]
    omega
  | step s t hs hst ih => exact pipe_step_inv hst ih

/-- C8: batch selection admits exactly the entries that are PENDING or
FAILED with fewer than 3 attempts, so in every reachable pipeline state
every entry has at most 3 processing attempts, and an entry that has
failed 3 times never appears in any `get_pending_entries` selection of
that state. -/
theorem retry_ceiling_and_exclusion (s : List RawEntry)
    (hs : PipeReach s) :
    (∀ e ∈ s, e.processing_attempts ≤ 3) ∧
    (∀ e ∈ s, e.processing_status = ProcessingStatus.failed →
      3 ≤ e.processing_attempts →
      ∀ limit, e ∉ get_pending_entries limit s) := by
  have hinv := pipe_reach_inv hs
  refine ⟨fun e he => (hinv e he).1, ?_⟩
  intro e _ hfail hatt limit hmem
  have hsel := mem_get_pending_entries hmem
  rcases of_decide_eq_true hsel with hp | ⟨_, hlt⟩
  · simp [hp] at hfail
  · omega

/-- Witness for C8: after three failed attempts the concrete entry
reaches the ceiling and is excluded from every selection of the
reachable state holding it. -/
theorem retry_ceiling_and_exclusion_witness :
    c8_exhausted.processing_attempts ≤ 3 ∧
    c8_exhausted ∉ get_pending_entries 10 [c8_exhausted] := by
  have hreach : PipeReach [c8_exhausted] := by
    refine PipeReach.step _ _ (PipeReach.step _ _ (PipeReach.step _ _
      (PipeReach.init [c8_entry0] ?_)
      (PipeStep.failure [] [] c8_entry0 ("timeout".data) 0 (by decide)))
      (PipeStep.failure [] [] _ ("timeout".data) 1 (by decide)))
      (PipeStep.failure [] [] _ ("timeout".data) 2 (by decide))
    intro e he
    rw [List.mem_singleton] at he
    subst he
    exact ⟨rfl, rfl⟩
  have h := retry_ceiling_and_exclusion [c8_exhausted] hreach
  exact ⟨h.1 c8_exhausted (List.mem_singleton.mpr rfl),
    h.2 c8_exhausted (List.mem_singleton.mpr rfl) rfl (by decide) 10⟩

/-! ### C9 — severity and CVSS normalization -/

/-- C9 counterexample to the claim as stated: a missing severity is
replaced by `UNKNOWN` but, unlike an invalid one, records no validation
issue — with every provider field absent, the only recorded issue is
the raw-text-description fallback. -/
theorem claim_c9_counterexample :
    emptyLLMData.severity = none ∧
    (validate_extraction emptyLLMData ("CVE-2024-5678".data)).severity =
      UNKNOWN_sev ∧
    (validate_extraction emptyLLMData
        ("CVE-2024-5678".data)).validation_issues =
      [Issue.raw_text_description] := by
  refine ⟨rfl, rfl, rfl⟩

lemma validate_cve_field_no_sev_issue (cve_id : Option (List Char))
    (raw_text : List Char) :
    ∀ t, Issue.invalid_severity t ∉ (validate_cve_field cve_id raw_text).2 := by
  intro t
  unfold validate_cve_field
  split
  · split
    · simp
    · split <;> simp
  · split <;> simp

lemma validate_cvss_field_no_sev_issue (c : Option PyFloatArg) :
    ∀ t, Issue.invalid_severity t ∉ (validate_cvss_field c).2 := by
  intro t
  rcases c with _ | f
  · simp [validate_cvss_field]
  · rcases f with q | _
    · simp only [validate_cvss_field]
      split <;> simp
    · simp [validate_cvss_field]

lemma validate_description_field_no_sev_issue
    (description : Option (List Char)) (raw_text : List Char) :
    ∀ t, Issue.invalid_severity t ∉
      (validate_description_field description raw_text).2 := by
  intro t
  unfold validate_description_field
  split
  · split <;> simp
  · simp

lemma validate_cvss_field_fst (c : Option PyFloatArg) (q : ℚ) :
    (validate_cvss_field c).1 = some q ↔
      (c = some (PyFloatArg.val q) ∧ 0 ≤ q ∧ q ≤ 10) := by
  rcases c with _ | f
  · simp [validate_cvss_field]
  · rcases f with q0 | _
    · simp only [validate_cvss_field]
      split
      · rename_i hr
        constructor
        · intro hq
          simp only [Option.some.injEq] at hq
          subst hq
          exact ⟨rfl, hr⟩
        · rintro ⟨heq, _⟩
          simp only [Option.some.injEq, PyFloatArg.val.injEq] at heq
          rw [heq]
      · rename_i hr
        constructor
        · intro hq
          simp at hq
        · rintro ⟨heq, hq⟩
          simp only [Option.some.injEq, PyFloatArg.val.injEq] at heq
          subst heq
          exact absurd hq hr
    · simp [validate_cvss_field]

lemma c9_cvss_eval : validate_cvss_field c9_data.cvss_score =
    (none, [Issue.cvss_out_of_range 15]) := by
  show validate_cvss_field (some (PyFloatArg.val 15)) = _
  simp only [validate_cvss_field]
  rw [if_neg (by norm_num)]

lemma c9_validated_eval :
    validate_extraction c9_data ("CVE-2024-5678".data) =
      { cve_id := some ("CVE-2024-5678".data), title := none
        description := "CVE-2024-5678".data, vendor := none, product := none
        severity := UNKNOWN_sev, cvss_score := none, cvss_vector := none
        validation_issues := [Issue.invalid_severity ("SUPER_HIGH".data),
          Issue.cvss_out_of_range 15, Issue.raw_text_description] } := by
  unfold validate_extraction
  rw [c9_cvss_eval]
  rfl

lemma round3_int_div_100 (z : ℤ) : round3 ((z : ℚ) / 100) = (z : ℚ) / 100 := by
  unfold round3
  rw [show ((z : ℚ) / 100 * 1000) = ((10 * z : ℤ) : ℚ) from by push_cast; ring,
    round_intCast]
  push_cast
  ring

lemma c9_confidence_eval :
    calculate_confidence (validate_extraction c9_data
      ("CVE-2024-5678".data)) = 1/5 := by
  rw [c9_validated_eval]
  show round3 (max 0 (min 1 ((30 + 0 + 0 + 0 + 0 + 5 + 0 : ℚ) /
    (30 + 20 + 15 + 10 + 15 + 10) -
    min ((((3 : Nat) : ℚ)) * 5) 20 / 100))) = 1/5
  rw [show (max 0 (min 1 ((30 + 0 + 0 + 0 + 0 + 5 + 0 : ℚ) /
      (30 + 20 + 15 + 10 + 15 + 10) -
      min ((((3 : Nat) : ℚ)) * 5) 20 / 100))) = ((20 : ℤ) : ℚ) / 100 from by
    norm_num [min_def, max_def]]
  rw [round3_int_div_100]
  norm_num

/-- C9 (amended): severity is normalized to an uppercase member of the
valid set — an invalid provided value becomes `UNKNOWN` with a recorded
validation issue, while a missing value becomes `UNKNOWN` with no
severity issue recorded; `cvss_score` is kept exactly when the provided
value converts to a number in [0, 10], an out-of-range number or an
unconvertible value being discarded with an issue; and on the claim's
scenario (severity `SUPER_HIGH`, CVSS 15.0, no provider CVE id, raw
text containing `CVE-2024-5678`) the result has severity `UNKNOWN`,
no CVSS, the raw text's CVE id, confidence 0.2 < 0.8 and
`needs_review`. -/
theorem severity_and_cvss_validation (data : LLMData)
    (raw_text : List Char) :
    (validate_extraction data raw_text).severity ∈ VALID_SEVERITIES ∧
    (∀ s, data.severity = some s → s ≠ [] →
      pyStrip (pyUpper s) ∉ VALID_SEVERITIES →
      (validate_extraction data raw_text).severity = UNKNOWN_sev ∧
      Issue.invalid_severity (pyStrip (pyUpper s)) ∈
        (validate_extraction data raw_text).validation_issues) ∧
    (optTruthy data.severity = false →
      (validate_extraction data raw_text).severity = UNKNOWN_sev ∧
      ∀ t, Issue.invalid_severity t ∉
        (validate_extraction data raw_text).validation_issues) ∧
    (∀ q, (validate_extraction data raw_text).cvss_score = some q ↔
      (data.cvss_score = some (PyFloatArg.val q) ∧ 0 ≤ q ∧ q ≤ 10)) ∧
    (∀ q, data.cvss_score = some (PyFloatArg.val q) → ¬ (0 ≤ q ∧ q ≤ 10) →
      Issue.cvss_out_of_range q ∈
        (validate_extraction data raw_text).validation_issues) ∧
    (data.cvss_score = some PyFloatArg.bad →
      Issue.invalid_cvss_value ∈
        (validate_extraction data raw_text).validation_issues) ∧
    ((extract_vulnerability (4/5) (Except.ok c9_data)
        ("CVE-2024-5678".data)).severity = some UNKNOWN_sev ∧
      (extract_vulnerability (4/5) (Except.ok c9_data)
        ("CVE-2024-5678".data)).cvss_score = none ∧
      (extract_vulnerability (4/5) (Except.ok c9_data)
        ("CVE-2024-5678".data)).cve_id = some ("CVE-2024-5678".data) ∧
      (extract_vulnerability (4/5) (Except.ok c9_data)
        ("CVE-2024-5678".data)).confidence_score < 4/5 ∧
      (extract_vulnerability (4/5) (Except.ok c9_data)
        ("CVE-2024-5678".data)).needs_review = true) := by
  refine ⟨validate_severity_field_mem data.severity, ?_, ?_, ?_, ?_, ?_, ?_⟩
  · intro s hds hs hnot
    have htr : optTruthy (some s) = true := by
      simpa [optTruthy, List.isEmpty_iff] using hs
    have hsev : validate_severity_field data.severity =
        (UNKNOWN_sev, [Issue.invalid_severity (pyStrip (pyUpper s))]) := by
      unfold validate_severity_field
      rw [hds]
      simp only [Option.getD_some]
      rw [if_pos htr, if_neg hnot]
    constructor
    · show (validate_severity_field data.severity).1 = UNKNOWN_sev
      rw [hsev]
    · show _ ∈ (validate_cve_field data.cve_id raw_text).2 ++
        (validate_severity_field data.severity).2 ++
        (validate_cvss_field data.cvss_score).2 ++
        (validate_description_field data.description raw_text).2
      rw [hsev]
      simp
  · intro hfalse
    have hsev : validate_severity_field data.severity = (UNKNOWN_sev, []) := by
      unfold validate_severity_field
      rw [if_neg (by simp [hfalse])]
    constructor
    · show (validate_severity_field data.severity).1 = UNKNOWN_sev
      rw [hsev]
    · intro t
      show ¬ (_ ∈ (validate_cve_field data.cve_id raw_text).2 ++
        (validate_severity_field data.severity).2 ++
        (validate_cvss_field data.cvss_score).2 ++
        (validate_description_field data.description raw_text).2)
      rw [hsev]
      simp only [List.append_nil, List.mem_append]
      rintro ((h | h) | h)
      · exact validate_cve_field_no_sev_issue data.cve_id raw_text t h
      · exact validate_cvss_field_no_sev_issue data.cvss_score t h
      · exact validate_description_field_no_sev_issue data.description
          raw_text t h
  · intro q
    exact validate_cvss_field_fst data.cvss_score q
  · intro q hq hrange
    show _ ∈ (validate_cve_field data.cve_id raw_text).2 ++
      (validate_severity_field data.severity).2 ++
      (validate_cvss_field data.cvss_score).2 ++
      (validate_description_field data.description raw_text).2
    have hcvss : validate_cvss_field data.cvss_score =
        (none, [Issue.cvss_out_of_range q]) := by
      rw [hq]
      simp only [validate_cvss_field]
      rw [if_neg hrange]
    rw [hcvss]
    simp
  · intro hbad
    show _ ∈ (validate_cve_field data.cve_id raw_text).2 ++
      (validate_severity_field data.severity).2 ++
      (validate_cvss_field data.cvss_score).2 ++
      (validate_description_field data.description raw_text).2
    have hcvss : validate_cvss_field data.cvss_score =
        (none, [Issue.invalid_cvss_value]) := by
      rw [hbad]
      simp only [validate_cvss_field]
    rw [hcvss]
    simp
  · have hc := c9_confidence_eval
    refine ⟨?_, ?_, ?_, ?_, ?_⟩
    · show some (validate_extraction c9_data ("CVE-2024-5678".data)).severity =
        some UNKNOWN_sev
      rw [c9_validated_eval]
    · show (validate_extraction c9_data ("CVE-2024-5678".data)).cvss_score =
        none
      rw [c9_validated_eval]
    · show (validate_extraction c9_data ("CVE-2024-5678".data)).cve_id =
        some ("CVE-2024-5678".data)
      rw [c9_validated_eval]
    · show calculate_confidence
        (validate_extraction c9_data ("CVE-2024-5678".data)) < 4/5
      rw [hc]
      norm_num
    · show decide (calculate_confidence
        (validate_extraction c9_data ("CVE-2024-5678".data)) < 4/5) = true
      rw [hc]
      norm_num

/-- Witness for C9 at the scenario input: the invalid severity
`SUPER_HIGH` is replaced by `UNKNOWN` and recorded as a validation
issue. -/
theorem severity_and_cvss_validation_witness :
    (validate_extraction c9_data ("CVE-2024-5678".data)).severity =
      UNKNOWN_sev ∧
    Issue.invalid_severity (pyStrip (pyUpper ("SUPER_HIGH".data))) ∈
      (validate_extraction c9_data ("CVE-2024-5678".data)).validation_issues := by
  exact (severity_and_cvss_validation c9_data ("CVE-2024-5678".data)).2.1
    ("SUPER_HIGH".data) rfl (by decide) (by decide)

/-! ### C10 — batch statistics classification -/

/-- C10 failing input: the second entry overwrites the stored row with a
strictly higher-confidence extraction, yet because the update lands on
the same timestamp as the creation (`created_at == updated_at`), the
after-the-fact classification of `process_batch` counts it as a second
"created" — `updated` and `duplicates` stay 0, where the claim requires
updated = 1 and duplicates = 1. -/
theorem claim_c10_misclassified_update :
    c10_v1.confidence_score < c10_ex2.confidence_score ∧
    (process_batch_items c10_items [] init_stats).2 =
      [updated_vulnerability c10_v1 c10_ex2 5] ∧
    (process_batch_items c10_items [] init_stats).1 =
      { processed := 2, created := 2, updated := 0, failed := 0,
        skipped := 0, duplicates := 0 } := by
  have hlt : c10_v1.confidence_score < c10_ex2.confidence_score := by
    norm_num [c10_v1, new_vulnerability, c10_ex1, c10_ex2]
  have ho2 : process_entry 5 c10_entry2 c10_ex2 [c10_v1] =
      { entry :=
          { id := 2, raw_payload := "second report".data
            processing_status := ProcessingStatus.completed
            processing_attempts := 1, last_processing_error := none
            ingested_at := 1, processed_at := some 5 }
        store := [updated_vulnerability c10_v1 c10_ex2 5]
        result := some (updated_vulnerability c10_v1 c10_ex2 5) } := by
    have htr : optTruthy c10_ex2.cve_id = true := rfl
    have hdb : dbGetVulnerability [c10_v1] (c10_ex2.cve_id.getD []) =
        some c10_v1 := by
      unfold dbGetVulnerability
      rw [List.find?_cons_of_pos _ (by decide)]
    simp only [process_entry, htr, if_true, hdb]
    rw [if_pos hlt]
    rfl
  have hrun : process_batch_items c10_items [] init_stats =
      process_batch_items
        [{ entry := c10_entry2, extraction := c10_ex2, now := 5 }]
        [c10_v1]
        { processed := 1, created := 1, updated := 0, failed := 0,
          skipped := 0, duplicates := 0 } := rfl
  refine ⟨hlt, ?_, ?_⟩
  · rw [hrun]
    simp only [process_batch_items]
    rw [ho2]
  · rw [hrun]
    simp only [process_batch_items]
    rw [ho2]
    rfl
